import Mathlib

/-!
Shallow embedding of the scope & visibility core of the project-management
backend (src/app.py and src/utils/db_helper.py): data model, project scope,
permission checks, team-membership automation and the due-date notification
generator, together with proofs of the specified properties.

Machine conventions: SQL rows are Lean structures, tables are lists, NULL
columns are Option, calendar dates are Int day numbers (DATEDIFF is
subtraction), and Python truthiness on nullable integer columns is the
`truthyNat` predicate below.
-/

namespace PM

/-- Row of the users table (the columns the core reads). -/
structure User where
  id : Nat
  organization_id : Nat
  full_name : String
  email : String
  phone : String
  role : String
  is_active : Bool
deriving DecidableEq

/-- Row of the projects table. -/
structure Project where
  id : Nat
  organization_id : Nat
  name : String
  description : String
  start_date : Option Int
  end_date : Option Int
  status : String
  visibility : String
  assigned_manager_id : Option Nat
  created_by : Nat
deriving DecidableEq

/-- Row of the project_members table (column role is 'manager' or 'member'). -/
structure ProjectMember where
  project_id : Nat
  user_id : Nat
  role : String
deriving DecidableEq

/-- Row of the project_visibility table. -/
structure ProjectVisibility where
  project_id : Nat
  user_id : Nat
deriving DecidableEq

/-- Row of the tasks table. -/
structure Task where
  id : Nat
  project_id : Nat
  milestone_id : Option Nat
  title : String
  description : String
  assigned_to : Option Nat
  priority : String
  status : String
  due_date : Option Int
  completion_date : Option Int
  created_by : Nat
  updated_at : Int
deriving DecidableEq

/-- Row of the documents table (the columns the access checks read). -/
structure Document where
  id : Nat
  organization_id : Nat
  project_id : Option Nat
  uploaded_by : Nat
  is_active : Bool
deriving DecidableEq

/-- Row of the daily_reports table (the columns the access checks read). -/
structure DailyReport where
  id : Nat
  user_id : Nat
  organization_id : Nat
  project_id : Option Nat
  visible_to_manager : Bool
  visible_to_admin : Bool
deriving DecidableEq

/-- Row of the notifications table; created_date models DATE(created_at). -/
structure Notification where
  user_id : Nat
  task_id : Option Nat
  project_id : Option Nat
  type : String
  days_until_due : Int
  created_date : Int
deriving DecidableEq

/-- The relational store. project_assignments stands for the rows of the
table of that name referred to by is_user_assigned_to_project; create_tables
never creates such a table (see created_tables below) and no statement in the
repository inserts into it. -/
structure DB where
  organizations : List Nat
  users : List User
  projects : List Project
  project_members : List ProjectMember
  project_visibility : List ProjectVisibility
  tasks : List Task
  documents : List Document
  daily_reports : List DailyReport
  notifications : List Notification
  project_assignments : List (Nat × Nat)
deriving DecidableEq

/-- Python truthiness of a nullable integer column: NULL and 0 are falsy. -/
def truthyNat : Option Nat → Bool
  | none => false
  | some n => !(n == 0)

/-- Python `value or None` on a nullable integer: falsy values become NULL. -/
def orNoneNat (v : Option Nat) : Option Nat :=
  if truthyNat v then v else none

/-- The tables created by create_tables (db_helper.py lines 76-370). -/
def created_tables : List String :=
  ["organizations", "users", "projects", "milestones", "tasks", "messages",
   "task_comments", "project_members", "project_visibility", "notifications",
   "daily_reports", "daily_report_modules", "daily_report_tasks", "documents"]

/-- get_user_by_id (db_helper.py 467): SELECT u.* FROM users u JOIN
organizations o ON u.organization_id = o.id WHERE u.id = %s. -/
def get_user_by_id (db : DB) (user_id : Nat) : Option User :=
  db.users.find? (fun u => u.id == user_id && db.organizations.contains u.organization_id)

/-- get_project_by_id (db_helper.py 963): SELECT p.* FROM projects p JOIN
users u ON p.created_by = u.id WHERE p.id = %s. -/
def get_project_by_id (db : DB) (project_id : Nat) : Option Project :=
  db.projects.find? (fun p => p.id == project_id && db.users.any (fun u => u.id == p.created_by))

/-- get_task_by_id (db_helper.py 1311): tasks JOIN projects JOIN users
creator, WHERE t.id = %s (the milestone and assignee joins are LEFT joins). -/
def get_task_by_id (db : DB) (task_id : Nat) : Option Task :=
  db.tasks.find? (fun t => t.id == task_id
    && db.projects.any (fun p => p.id == t.project_id)
    && db.users.any (fun u => u.id == t.created_by))

/-- get_organization_projects (db_helper.py 940): SELECT p.* FROM projects p
JOIN users u ON p.created_by = u.id WHERE p.organization_id = %s. -/
def get_organization_projects (db : DB) (org_id : Nat) : List Project :=
  db.projects.filter (fun p => p.organization_id == org_id
    && db.users.any (fun u => u.id == p.created_by))

/-- get_user_visible_projects (db_helper.py 1741-1773): admins and managers
get every organization project; members get the projects joined through a
project_members row for them (the creator join is as in the SQL). -/
def get_user_visible_projects (db : DB) (user_id org_id : Nat) : List Project :=
  match db.users.find? (fun u => u.id == user_id) with
  | none => []
  | some u =>
    if u.role == "admin" || u.role == "manager" then
      get_organization_projects db org_id
    else
      db.projects.filter (fun p =>
        db.users.any (fun c => c.id == p.created_by)
        && db.project_members.any (fun pm => pm.project_id == p.id && pm.user_id == user_id)
        && p.organization_id == org_id)

/-- view_project route (app.py 381-397): @login_required, fetch the project
and reject when it is missing or its organization differs from the session's. -/
def view_project_allowed (db : DB) (session_org : Nat) (project_id : Nat) : Bool :=
  match get_project_by_id db project_id with
  | none => false
  | some p => p.organization_id == session_org

/-- edit_project route (app.py 399-425) under @admin_required (app.py
110-121): the session user must exist with role admin or manager, and the
project must exist in the session's organization; no other check is made. -/
def edit_project_allowed (db : DB) (session_user session_org : Nat) (project_id : Nat) : Bool :=
  match get_user_by_id db session_user with
  | none => false
  | some u =>
    if !(u.role == "admin" || u.role == "manager") then false
    else
      match get_project_by_id db project_id with
      | none => false
      | some p => p.organization_id == session_org

/-- is_user_assigned_to_project (db_helper.py 2678-2697): SELECT 1 FROM
project_assignments WHERE user_id = %s AND project_id = %s. When the queried
table is absent from the schema built by create_tables the execute raises and
the except branch returns False. -/
def is_user_assigned_to_project (db : DB) (user_id project_id : Nat) : Bool :=
  if created_tables.contains "project_assignments" then
    db.project_assignments.any (fun r => r.1 == user_id && r.2 == project_id)
  else
    false

/-- can_user_view_document (db_helper.py 2583-2610), with the Python
fall-through after a failed manager branch ending at the final return False. -/
def can_user_view_document (db : DB) (user_id org_id : Nat) (role : String)
    (document : Option Document) : Bool :=
  match document with
  | none => false
  | some d =>
    if d.organization_id != org_id || !d.is_active then false
    else if role == "admin" then true
    else if d.uploaded_by == user_id then true
    else if truthyNat d.project_id then
      if role == "manager" then
        match get_project_by_id db (d.project_id.getD 0) with
        | some p => p.assigned_manager_id == some user_id
        | none => false
      else if role == "member" then
        is_user_assigned_to_project db user_id (d.project_id.getD 0)
      else false
    else true

/-- Access disjunct of get_daily_report_by_id (db_helper.py 3136-3187): the
submitter always qualifies; the role conditions quantify over the rows the
LEFT JOIN of project_members on dr.project_id produces. -/
def daily_report_access (db : DB) (user_id : Nat) (user_role : String) (dr : DailyReport) : Bool :=
  let pm_match :=
    match dr.project_id with
    | none => false
    | some pid => db.project_members.any (fun pm => pm.project_id == pid && pm.user_id == user_id)
  let p_assigned :=
    match dr.project_id with
    | none => false
    | some pid => db.projects.any (fun p => p.id == pid && p.assigned_manager_id == some user_id)
  dr.user_id == user_id
  || (if user_role == "admin" then dr.visible_to_admin
      else if user_role == "manager" then
        dr.project_id == none || p_assigned || pm_match
      else if user_role == "member" then
        dr.visible_to_manager && (dr.project_id == none || pm_match)
      else false)

/-- get_daily_report_by_id (db_helper.py 3136-3187): WHERE dr.id = %s AND
dr.organization_id = %s AND (access conditions); the JOIN on users requires
the submitter row to exist. -/
def get_daily_report_by_id (db : DB) (report_id user_id org_id : Nat)
    (user_role : String) : Option DailyReport :=
  db.daily_reports.find? (fun dr =>
    dr.id == report_id && dr.organization_id == org_id
    && db.users.any (fun u => u.id == dr.user_id)
    && daily_report_access db user_id user_role dr)

/-- validate_date_within_project (db_helper.py 21-46): missing project fails;
a null date, or a project without both dates, passes; otherwise the date must
lie between start and end inclusive. -/
def validate_date_within_project (db : DB) (project_id : Nat) (date_to_check : Option Int) : Bool :=
  match db.projects.find? (fun p => p.id == project_id) with
  | none => false
  | some p =>
    match date_to_check with
    | none => true
    | some d =>
      match p.start_date, p.end_date with
      | some s, some e => decide (s ≤ d) && decide (d ≤ e)
      | _, _ => true

/-- add_user_to_project_team (db_helper.py 1162-1180): insert a member-kind
project_members row unless one already links the user to the project. -/
def add_user_to_project_team (members : List ProjectMember) (project_id user_id : Nat) : List ProjectMember :=
  if members.any (fun pm => pm.project_id == project_id && pm.user_id == user_id) then
    members
  else
    members ++ [⟨project_id, user_id, "member"⟩]

/-- Form data of create_task (fields the INSERT uses; nullable form values
arrive as Option, since an empty form field is Python-falsy). -/
structure TaskData where
  project_id : Nat
  milestone_id : Option Nat
  title : String
  description : String
  assigned_to : Option Nat
  priority : String
  due_date : Option Int
  created_by : Nat
deriving DecidableEq

/-- create_task (db_helper.py 1335-1369): validate the due date, INSERT the
task (schema default status is pending), then add_user_to_project_team when
assigned_to is truthy; none models the rolled-back failure. -/
def create_task (db : DB) (data : TaskData) (new_id : Nat) (now : Int) : Option DB :=
  if !(validate_date_within_project db data.project_id data.due_date) then none
  else
    let t : Task := {
      id := new_id, project_id := data.project_id,
      milestone_id := orNoneNat data.milestone_id, title := data.title,
      description := data.description, assigned_to := orNoneNat data.assigned_to,
      priority := data.priority, status := "pending", due_date := data.due_date,
      completion_date := none, created_by := data.created_by, updated_at := now }
    let members :=
      if truthyNat data.assigned_to then
        add_user_to_project_team db.project_members data.project_id (data.assigned_to.getD 0)
      else db.project_members
    some { db with tasks := db.tasks ++ [t], project_members := members }

/-- Partial update data of update_task: an outer some means the key is
present in the dict; the inner Option is the (or None)-normalised value. -/
structure TaskUpdate where
  title : Option String
  description : Option String
  assigned_to : Option (Option Nat)
  priority : Option String
  status : Option String
  due_date : Option (Option Int)
  milestone_id : Option (Option Nat)
deriving DecidableEq

/-- Field-by-field effect of the UPDATE built by update_task (db_helper.py
1371-1436); a status of completed sets completion_date to today, pending or
in_progress clears it, and updated_at is refreshed. -/
def apply_task_update (u : TaskUpdate) (today now : Int) (t : Task) : Task :=
  let t := match u.title with | some v => { t with title := v } | none => t
  let t := match u.description with | some v => { t with description := v } | none => t
  let t := match u.assigned_to with | some v => { t with assigned_to := orNoneNat v } | none => t
  let t := match u.priority with | some v => { t with priority := v } | none => t
  let t := match u.status with
    | some v =>
      let t1 := { t with status := v }
      if v == "completed" then { t1 with completion_date := some today }
      else if v == "pending" || v == "in_progress" then { t1 with completion_date := none }
      else t1
    | none => t
  let t := match u.due_date with | some v => { t with due_date := v } | none => t
  let t := match u.milestone_id with | some v => { t with milestone_id := orNoneNat v } | none => t
  { t with updated_at := now }

/-- update_task (db_helper.py 1371-1436): with no keys present it returns
True without touching the table; otherwise it updates the matching row (the
refreshed updated_at makes the row count as changed when it exists). -/
def update_task (db : DB) (task_id : Nat) (u : TaskUpdate) (today now : Int) : Bool × DB :=
  if u.title == none && u.description == none && u.assigned_to == none
     && u.priority == none && u.status == none && u.due_date == none
     && u.milestone_id == none then
    (true, db)
  else
    (db.tasks.any (fun t => t.id == task_id),
     { db with tasks := db.tasks.map (fun t =>
         if t.id == task_id then apply_task_update u today now t else t) })

/-- view_task route (app.py 557-576): fetch the task, check the parent
project's organization, and restrict members to tasks assigned to them. -/
def view_task_allowed (db : DB) (session_user session_org : Nat) (role : String)
    (task_id : Nat) : Bool :=
  match get_task_by_id db task_id with
  | none => false
  | some t =>
    match get_project_by_id db t.project_id with
    | none => false
    | some p =>
      if p.organization_id != session_org then false
      else if role == "member" && t.assigned_to != some session_user then false
      else true

/-- The status-only data dict edit_task builds for a member. -/
def memberStatusUpdate (s : String) : TaskUpdate :=
  { title := none, description := none, assigned_to := none, priority := none,
    status := some s, due_date := none, milestone_id := none }

/-- Task edit form of the edit_task route (app.py 578-623). -/
structure TaskForm where
  title : String
  description : String
  assigned_to : Option Nat
  priority : String
  status : String
  due_date : Option Int
  milestone_id : Option Nat
deriving DecidableEq

/-- edit_task route (app.py 578-623): fetch the task, check the project's
organization, restrict members to their own tasks, then call update_task with
status-only data for members and the full field set otherwise. -/
def edit_task_route (db : DB) (session_user session_org : Nat) (role : String)
    (task_id : Nat) (form : TaskForm) (today now : Int) : Bool × DB :=
  match get_task_by_id db task_id with
  | none => (false, db)
  | some t =>
    match get_project_by_id db t.project_id with
    | none => (false, db)
    | some p =>
      if p.organization_id != session_org then (false, db)
      else if role == "member" && t.assigned_to != some session_user then (false, db)
      else
        let data : TaskUpdate :=
          if role == "member" then
            memberStatusUpdate form.status
          else
            { title := some form.title, description := some form.description,
              assigned_to := some form.assigned_to, priority := some form.priority,
              status := some form.status, due_date := some form.due_date,
              milestone_id := some form.milestone_id }
        update_task db task_id data today now

/-- Form data applied by update_project (the full field set its UPDATE sets). -/
structure ProjectUpdate where
  name : String
  description : String
  start_date : Option Int
  end_date : Option Int
  status : String
  assigned_manager_id : Option Nat
deriving DecidableEq

/-- _auto_unassign_completed_project_members (db_helper.py 2232-2262):
DELETE FROM project_members WHERE project_id = %s AND role = 'member'. -/
def auto_unassign_completed_project_members (members : List ProjectMember) (project_id : Nat) : List ProjectMember :=
  members.filter (fun pm => !(pm.project_id == project_id && pm.role == "member"))

/-- update_project (db_helper.py 1006-1040): read the current status, apply
the UPDATE, and run the auto-unassignment only when the status was not
completed and the new status is completed. -/
def update_project (db : DB) (project_id : Nat) (data : ProjectUpdate) : DB :=
  let current_status := (db.projects.find? (fun p => p.id == project_id)).map (fun p => p.status)
  let projects := db.projects.map (fun p =>
    if p.id == project_id then
      { p with name := data.name, description := data.description,
               start_date := data.start_date, end_date := data.end_date,
               status := data.status,
               assigned_manager_id := orNoneNat data.assigned_manager_id }
    else p)
  let members :=
    if current_status != some "completed" && data.status == "completed" then
      auto_unassign_completed_project_members db.project_members project_id
    else db.project_members
  { db with projects := projects, project_members := members }

/-- User edit form of the edit_user route (the fields its data dict always
carries; the optional password entry is outside the modelled columns). -/
structure UserForm where
  full_name : String
  email : String
  phone : String
  role : String
  is_active : Bool
deriving DecidableEq

/-- update_user (db_helper.py 592-645) for the edit_user data dict: set the
listed columns on the matching row; True when a row matched. -/
def update_user (db : DB) (user_id : Nat) (form : UserForm) : Bool × DB :=
  (db.users.any (fun u => u.id == user_id),
   { db with users := db.users.map (fun u =>
       if u.id == user_id then
         { u with full_name := form.full_name, email := form.email,
                  phone := form.phone, role := form.role, is_active := form.is_active }
       else u) })

/-- edit_user route (app.py 717-783) under @admin_required: the guards in
source order, then update_user; every rejected request leaves the store
unchanged. -/
def edit_user_route (db : DB) (session_user session_org : Nat) (target_id : Nat)
    (form : UserForm) : Bool × DB :=
  match get_user_by_id db target_id with
  | none => (false, db)
  | some user =>
    if user.organization_id != session_org then (false, db)
    else
      match get_user_by_id db session_user with
      | none => (false, db)
      | some current_user =>
        if user.id == session_user && user.role == "admin" then (false, db)
        else if current_user.role == "manager" && user.role == "admin" then (false, db)
        else if current_user.role == "manager" && user.role == "manager"
                && user.id != session_user then (false, db)
        else if current_user.role == "manager" && form.role == "admin" then (false, db)
        else if current_user.role == "manager" && user.role == "manager"
                && user.id != session_user then (false, db)
        else if current_user.role == "manager" && form.role == "manager"
                && user.role != "manager" then (false, db)
        else update_user db target_id form

/-- The dedup existence query of create_due_date_notifications: a
notifications row for this user and task of type task_due_soon created on the
current calendar day. -/
def dedup_exists (notifs : List Notification) (assigned_to task_id : Nat) (today : Int) : Bool :=
  notifs.any (fun n => n.user_id == assigned_to && n.task_id == some task_id
    && n.type == "task_due_soon" && n.created_date == today)

/-- The task SELECT of create_due_date_notifications (db_helper.py
1776-1843): organization match through the project join, assignee and due
date present, due date within [today, today + days_ahead], not completed. -/
def eligible_due_tasks (db : DB) (org_id : Nat) (today days_ahead : Int) : List Task :=
  db.tasks.filter (fun t =>
    db.projects.any (fun p => p.id == t.project_id && p.organization_id == org_id)
    && t.assigned_to != none
    && t.due_date != none
    && decide (today ≤ t.due_date.getD 0)
    && decide (t.due_date.getD 0 ≤ today + days_ahead)
    && t.status != "completed")

/-- The notifications row the generator INSERTs for a task; days_until_due
is DATEDIFF(due_date, CURDATE()). -/
def due_notification (t : Task) (today : Int) : Notification :=
  { user_id := t.assigned_to.getD 0, task_id := some t.id, project_id := some t.project_id,
    type := "task_due_soon", days_until_due := t.due_date.getD 0 - today,
    created_date := today }

/-- Loop body of create_due_date_notifications: per task, skip when the
per-day dedup row exists, otherwise append the new notification (the SELECT
guarantees assigned_to is non-null). -/
def process_due_tasks (today : Int) : List Task → List Notification → List Notification
  | [], notifs => notifs
  | t :: rest, notifs =>
    match t.assigned_to with
    | none => process_due_tasks today rest notifs
    | some a =>
      if dedup_exists notifs a t.id today then
        process_due_tasks today rest notifs
      else
        process_due_tasks today rest (notifs ++ [due_notification t today])

/-- create_due_date_notifications (db_helper.py 1776-1843), failure-free run:
scan the eligible tasks and commit the accumulated notifications. -/
def create_due_date_notifications (db : DB) (org_id : Nat) (days_ahead today : Int) : DB :=
  { db with notifications :=
      process_due_tasks today (eligible_due_tasks db org_id today days_ahead) db.notifications }

/-- Loop body instrumented with a failure oracle: fails t.id means the INSERT
for task t raises; none is the exception escaping the loop. A task skipped by
the dedup check never reaches its INSERT. -/
def process_due_tasks_f (today : Int) (fails : Nat → Bool) :
    List Task → List Notification → Option (List Notification)
  | [], notifs => some notifs
  | t :: rest, notifs =>
    match t.assigned_to with
    | none => process_due_tasks_f today fails rest notifs
    | some a =>
      if dedup_exists notifs a t.id today then
        process_due_tasks_f today fails rest notifs
      else if fails t.id then none
      else process_due_tasks_f today fails rest (notifs ++ [due_notification t today])

/-- create_due_date_notifications with the failure oracle: the single
try/except wraps the whole loop and the one commit, so an exception reaches
conn.rollback() and the function returns False with the store unchanged. -/
def create_due_date_notifications_f (db : DB) (org_id : Nat) (days_ahead today : Int)
    (fails : Nat → Bool) : Bool × DB :=
  match process_due_tasks_f today fails (eligible_due_tasks db org_id today days_ahead) db.notifications with
  | some notifs => (true, { db with notifications := notifs })
  | none => (false, db)

/-- Count of per-day dedup rows for one (assignee, task) pair. -/
def countMatching (notifs : List Notification) (assigned_to task_id : Nat) (today : Int) : Nat :=
  (notifs.filter (fun n => n.user_id == assigned_to && n.task_id == some task_id
    && n.type == "task_due_soon" && n.created_date == today)).length

/-! Concrete fixtures used by counterexamples and witnesses. -/

/-- A member of organization 1. -/
def exMemberC1 : User :=
  { id := 10, organization_id := 1, full_name := "m", email := "m@x", phone := "",
    role := "member", is_active := true }

/-- A project of organization 1 with visibility mode all and no memberships. -/
def exAllProjC1 : Project :=
  { id := 20, organization_id := 1, name := "p", description := "",
    start_date := none, end_date := none, status := "active", visibility := "all",
    assigned_manager_id := none, created_by := 10 }

/-- A project of organization 1 the member holds a membership row on. -/
def exMemProjC1 : Project :=
  { id := 21, organization_id := 1, name := "q", description := "",
    start_date := none, end_date := none, status := "active", visibility := "specific",
    assigned_manager_id := none, created_by := 10 }

/-- Store with the visibility-all project and no membership rows. -/
def exDbC1 : DB :=
  { organizations := [1], users := [exMemberC1], projects := [exAllProjC1],
    project_members := [], project_visibility := [], tasks := [], documents := [],
    daily_reports := [], notifications := [], project_assignments := [] }

/-- Store with both projects and a membership row on project 21 only. -/
def exDbC1w : DB :=
  { organizations := [1], users := [exMemberC1], projects := [exAllProjC1, exMemProjC1],
    project_members := [⟨21, 10, "member"⟩], project_visibility := [], tasks := [],
    documents := [], daily_reports := [], notifications := [],
    project_assignments := [] }

/-! Theorems. -/

/-- C1 counterexample: for the member actor 10 of organization 1, the
visibility-all project 20 carries no membership row and is excluded from
get_user_visible_projects, so visibility mode all does not put a project in a
member's project-view scope as the claim states. -/
theorem c1_counterexample :
    exDbC1.users.find? (fun x => x.id == 10) = some exMemberC1
    ∧ exMemberC1.role = "member"
    ∧ exAllProjC1 ∈ exDbC1.projects
    ∧ exAllProjC1.visibility = "all"
    ∧ exAllProjC1.organization_id = 1
    ∧ exDbC1.project_members = []
    ∧ exAllProjC1 ∉ get_user_visible_projects exDbC1 10 1 := by
  decide

/-- C1 amended: for an actor with role member, get_user_visible_projects
includes a project exactly when it is an organization project with an
existing creator row and the member holds a project_members row on it; the
visibility mode is not consulted. -/
theorem c1_member_scope (db : DB) (user_id org_id : Nat) (u : User) (p : Project)
    (hu : db.users.find? (fun x => x.id == user_id) = some u)
    (hrole : u.role = "member") :
    p ∈ get_user_visible_projects db user_id org_id ↔
      p ∈ db.projects
      ∧ db.users.any (fun c => c.id == p.created_by) = true
      ∧ db.project_members.any (fun pm => pm.project_id == p.id && pm.user_id == user_id) = true
      ∧ p.organization_id = org_id := by
  unfold get_user_visible_projects
  rw [hu]
  simp [hrole, List.mem_filter, and_assoc]

/-- C1 witness: the membership project 21 is in member 10's scope. -/
theorem c1_member_scope_witness :
    exMemProjC1 ∈ get_user_visible_projects exDbC1w 10 1 :=
  (c1_member_scope exDbC1w 10 1 exMemberC1 exMemProjC1 (by decide) (by decide)).mpr
    ⟨by decide, by decide, by decide, by decide⟩

/-- An admin of organization 1. -/
def exAdminC2 : User :=
  { id := 10, organization_id := 1, full_name := "a", email := "a@x", phone := "",
    role := "admin", is_active := true }

/-- A user of organization 2. -/
def exOtherUserC2 : User :=
  { id := 30, organization_id := 2, full_name := "o", email := "o@x", phone := "",
    role := "member", is_active := true }

/-- A project of organization 2. -/
def exProjC2 : Project :=
  { id := 20, organization_id := 2, name := "p2", description := "",
    start_date := none, end_date := none, status := "active", visibility := "all",
    assigned_manager_id := none, created_by := 30 }

/-- A task inside the organization-2 project. -/
def exTaskC2 : Task :=
  { id := 5, project_id := 20, milestone_id := none, title := "t", description := "",
    assigned_to := none, priority := "medium", status := "pending", due_date := none,
    completion_date := none, created_by := 30, updated_at := 0 }

/-- A document of organization 2. -/
def exDocC2 : Document :=
  { id := 7, organization_id := 2, project_id := none, uploaded_by := 30, is_active := true }

/-- A daily report of organization 1 submitted by the admin. -/
def exReportC2 : DailyReport :=
  { id := 9, user_id := 10, organization_id := 1, project_id := none,
    visible_to_manager := false, visible_to_admin := false }

/-- A task edit form. -/
def exFormC2 : TaskForm :=
  { title := "x", description := "", assigned_to := none, priority := "low",
    status := "pending", due_date := none, milestone_id := none }

/-- A user edit form. -/
def exUFormC2 : UserForm :=
  { full_name := "n", email := "e@x", phone := "", role := "member", is_active := true }

/-- Store with an actor in organization 1 and resources in organization 2. -/
def exDbC2 : DB :=
  { organizations := [1, 2], users := [exAdminC2, exOtherUserC2],
    projects := [exProjC2], project_members := [], project_visibility := [],
    tasks := [exTaskC2], documents := [exDocC2], daily_reports := [exReportC2],
    notifications := [], project_assignments := [] }

/-- C2: every embedded access decision denies when the resource's
organization id differs from the actor's organization id, whatever the role:
project view and edit, task view and edit, document view, daily-report fetch,
and user edit. -/
theorem c2_cross_tenant (db : DB) (session_user session_org : Nat) (role : String)
    (project_id task_id report_id target_id : Nat) (d : Document)
    (form : TaskForm) (uform : UserForm) (today now : Int) :
    (∀ p, get_project_by_id db project_id = some p → p.organization_id ≠ session_org →
      view_project_allowed db session_org project_id = false)
    ∧ (∀ p, get_project_by_id db project_id = some p → p.organization_id ≠ session_org →
      edit_project_allowed db session_user session_org project_id = false)
    ∧ (∀ t p, get_task_by_id db task_id = some t →
        get_project_by_id db t.project_id = some p → p.organization_id ≠ session_org →
        view_task_allowed db session_user session_org role task_id = false)
    ∧ (∀ t p, get_task_by_id db task_id = some t →
        get_project_by_id db t.project_id = some p → p.organization_id ≠ session_org →
        edit_task_route db session_user session_org role task_id form today now = (false, db))
    ∧ (d.organization_id ≠ session_org →
        can_user_view_document db session_user session_org role (some d) = false)
    ∧ (∀ dr, get_daily_report_by_id db report_id session_user session_org role = some dr →
        dr.organization_id = session_org)
    ∧ (∀ u, get_user_by_id db target_id = some u → u.organization_id ≠ session_org →
        edit_user_route db session_user session_org target_id uform = (false, db)) := by
  refine ⟨?_, ?_, ?_, ?_, ?_, ?_, ?_⟩
  · intro p hp hne
    simp [view_project_allowed, hp, hne]
  · intro p hp hne
    unfold edit_project_allowed
    cases hu : get_user_by_id db session_user with
    | none => rfl
    | some u =>
      split
      · rfl
      · simp [hp, hne]
  · intro t p ht hp hne
    unfold view_task_allowed
    rw [ht]
    simp [hp, hne]
  · intro t p ht hp hne
    unfold edit_task_route
    rw [ht]
    simp [hp, hne]
  · intro hne
    unfold can_user_view_document
    simp [hne]
  · intro dr hdr
    have h := List.find?_some hdr
    simp only [Bool.and_eq_true, beq_iff_eq] at h
    exact h.1.1.2
  · intro u hu hne
    unfold edit_user_route
    rw [hu]
    simp [hne]

/-- C2 witness: with an organization-1 actor and organization-2 resources,
every decision is a denial, and the one daily report an admin can fetch is in
the actor's organization. -/
theorem c2_cross_tenant_witness :
    view_project_allowed exDbC2 1 20 = false
    ∧ edit_project_allowed exDbC2 10 1 20 = false
    ∧ view_task_allowed exDbC2 10 1 "admin" 5 = false
    ∧ edit_task_route exDbC2 10 1 "admin" 5 exFormC2 0 0 = (false, exDbC2)
    ∧ can_user_view_document exDbC2 10 1 "admin" (some exDocC2) = false
    ∧ exReportC2.organization_id = 1
    ∧ edit_user_route exDbC2 10 1 30 exUFormC2 = (false, exDbC2) := by
  have h := c2_cross_tenant exDbC2 10 1 "admin" 20 5 9 30 exDocC2 exFormC2 exUFormC2 0 0
  exact ⟨h.1 exProjC2 (by decide) (by decide),
    h.2.1 exProjC2 (by decide) (by decide),
    h.2.2.1 exTaskC2 exProjC2 (by decide) (by decide) (by decide),
    h.2.2.2.1 exTaskC2 exProjC2 (by decide) (by decide) (by decide),
    h.2.2.2.2.1 (by decide),
    h.2.2.2.2.2.1 exReportC2 (by decide),
    h.2.2.2.2.2.2 exOtherUserC2 (by decide) (by decide)⟩

/-- A manager of organization 1. -/
def exMgrC3 : User :=
  { id := 10, organization_id := 1, full_name := "g", email := "g@x", phone := "",
    role := "manager", is_active := true }

/-- A project of organization 1 whose assigned manager is user 99, not 10. -/
def exProjC3 : Project :=
  { id := 20, organization_id := 1, name := "p", description := "",
    start_date := none, end_date := none, status := "active", visibility := "all",
    assigned_manager_id := some 99, created_by := 10 }

/-- Store with the manager and the project assigned to a different manager. -/
def exDbC3 : DB :=
  { organizations := [1], users := [exMgrC3], projects := [exProjC3],
    project_members := [], project_visibility := [], tasks := [], documents := [],
    daily_reports := [], notifications := [], project_assignments := [] }

/-- C3 counterexample: manager 10 is not project 20's assigned manager, yet
the edit_project route admits the edit, so project edit by a manager is not
conditioned on the assigned-manager field as the claim states. -/
theorem c3_counterexample :
    get_user_by_id exDbC3 10 = some exMgrC3
    ∧ exMgrC3.role = "manager"
    ∧ get_project_by_id exDbC3 20 = some exProjC3
    ∧ exProjC3.organization_id = 1
    ∧ exProjC3.assigned_manager_id ≠ some 10
    ∧ edit_project_allowed exDbC3 10 1 20 = true := by
  decide

/-- C3 amended: for a manager actor, the edit_project route allows the edit
exactly when the project exists in the session's organization; the project's
assigned-manager field is never consulted. -/
theorem c3_manager_edit (db : DB) (session_user session_org project_id : Nat) (u : User)
    (hu : get_user_by_id db session_user = some u)
    (hrole : u.role = "manager") :
    edit_project_allowed db session_user session_org project_id = true ↔
      ∃ p, get_project_by_id db project_id = some p ∧ p.organization_id = session_org := by
  unfold edit_project_allowed
  rw [hu]
  cases hp : get_project_by_id db project_id with
  | none => simp [hrole]
  | some p => simp [hrole]

/-- C3 witness: manager 10 may edit project 20 of their organization. -/
theorem c3_manager_edit_witness :
    edit_project_allowed exDbC3 10 1 20 = true :=
  (c3_manager_edit exDbC3 10 1 20 exMgrC3 (by decide) (by decide)).mpr
    ⟨exProjC3, by decide, by decide⟩

/-- A project-attached document of organization 1 uploaded by user 30. -/
def exDocC4 : Document :=
  { id := 7, organization_id := 1, project_id := some 20, uploaded_by := 30,
    is_active := true }

/-- Store for the document-view witness: a member, the uploader, and the
project with a membership row for the member. -/
def exDbC4 : DB :=
  { organizations := [1],
    users := [exMemberC1,
      { id := 30, organization_id := 1, full_name := "u", email := "u@x", phone := "",
        role := "member", is_active := true }],
    projects := [exAllProjC1], project_members := [⟨20, 10, "member"⟩],
    project_visibility := [], tasks := [], documents := [exDocC4],
    daily_reports := [], notifications := [], project_assignments := [] }

/-- C4: the project_assignments table queried by is_user_assigned_to_project
is not among the tables create_tables creates, so the check returns False on
every input, and a member who is not the uploader is never granted view of a
project-attached document by can_user_view_document. -/
theorem c4_dead_membership_check (db : DB) (user_id project_id org_id : Nat) (d : Document)
    (hup : d.uploaded_by ≠ user_id)
    (hproj : truthyNat d.project_id = true) :
    created_tables.contains "project_assignments" = false
    ∧ is_user_assigned_to_project db user_id project_id = false
    ∧ can_user_view_document db user_id org_id "member" (some d) = false := by
  refine ⟨by decide, by simp [is_user_assigned_to_project, created_tables], ?_⟩
  unfold can_user_view_document
  simp only [is_user_assigned_to_project, created_tables]
  split
  · rfl
  · have hud : (d.uploaded_by == user_id) = false := by
      simpa using hup
    simp [hud, hproj]

/-- C4 witness: member 10 holds a project_members row on project 20, yet
viewing the project-attached document uploaded by user 30 is denied. -/
theorem c4_dead_membership_check_witness :
    exDbC4.project_members = [⟨20, 10, "member"⟩]
    ∧ can_user_view_document exDbC4 10 1 "member" (some exDocC4) = false :=
  ⟨by decide,
   (c4_dead_membership_check exDbC4 10 20 1 exDocC4 (by decide) (by decide)).2.2⟩

/-- A project of organization 1 with no dates, created by user 3. -/
def exProjC5 : Project :=
  { id := 1, organization_id := 1, name := "p", description := "",
    start_date := none, end_date := none, status := "active", visibility := "all",
    assigned_manager_id := none, created_by := 3 }

/-- An unassigned task in project 1. -/
def exTaskC5 : Task :=
  { id := 5, project_id := 1, milestone_id := none, title := "t", description := "",
    assigned_to := none, priority := "medium", status := "pending", due_date := none,
    completion_date := none, created_by := 3, updated_at := 0 }

/-- Store with the project, the task, member 2, creator 3 and no memberships. -/
def exDbC5 : DB :=
  { organizations := [1],
    users := [
      { id := 2, organization_id := 1, full_name := "m", email := "m@x", phone := "",
        role := "member", is_active := true },
      { id := 3, organization_id := 1, full_name := "c", email := "c@x", phone := "",
        role := "admin", is_active := true }],
    projects := [exProjC5], project_members := [], project_visibility := [],
    tasks := [exTaskC5], documents := [], daily_reports := [], notifications := [],
    project_assignments := [] }

/-- Partial update assigning task 5 to user 2. -/
def exUpdC5 : TaskUpdate :=
  { title := none, description := none, assigned_to := some (some 2), priority := none,
    status := none, due_date := none, milestone_id := none }

/-- Creation data for a new task in project 1 assigned to user 2. -/
def exDataC5 : TaskData :=
  { project_id := 1, milestone_id := none, title := "n", description := "",
    assigned_to := some 2, priority := "low", due_date := none, created_by := 3 }

/-- The store create_task produces from exDbC5 and exDataC5. -/
def exDbC5out : DB :=
  { exDbC5 with
    tasks := exDbC5.tasks ++ [
      { id := 6, project_id := 1, milestone_id := none, title := "n", description := "",
        assigned_to := some 2, priority := "low", status := "pending", due_date := none,
        completion_date := none, created_by := 3, updated_at := 0 }],
    project_members := [⟨1, 2, "member"⟩] }

/-- C5 counterexample: updating task 5 with the non-null assignee 2, who has
no membership row on project 1, succeeds but creates no project_members row,
so the auto-add behavior does not fire on the update path as the claim
states. -/
theorem c5_counterexample :
    exUpdC5.assigned_to = some (some 2)
    ∧ exDbC5.project_members = []
    ∧ (update_task exDbC5 5 exUpdC5 0 0).1 = true
    ∧ (∃ t ∈ (update_task exDbC5 5 exUpdC5 0 0).2.tasks, t.id = 5 ∧ t.assigned_to = some 2)
    ∧ (update_task exDbC5 5 exUpdC5 0 0).2.project_members = [] := by
  decide

/-- C5 amended: the auto-add of an assignee to the project team fires on the
create path only: a successful create_task with a truthy assignee runs
add_user_to_project_team, while update_task leaves project_members unchanged
for every input. -/
theorem c5_auto_add_create_only (db : DB) (data : TaskData) (new_id : Nat)
    (now today : Int) (task_id : Nat) (u : TaskUpdate) (db' : DB)
    (hc : create_task db data new_id now = some db')
    (ha : truthyNat data.assigned_to = true) :
    db'.project_members
      = add_user_to_project_team db.project_members data.project_id (data.assigned_to.getD 0)
    ∧ (update_task db task_id u today now).2.project_members = db.project_members := by
  constructor
  · unfold create_task at hc
    split at hc
    · exact Option.noConfusion hc
    · cases Option.some.inj hc
      simp [ha]
  · unfold update_task
    split
    · rfl
    · rfl

/-- C5 witness: creating a task assigned to user 2 adds the membership row,
and the assigning update leaves the membership table empty. -/
theorem c5_auto_add_create_only_witness :
    exDbC5out.project_members
      = add_user_to_project_team exDbC5.project_members exDataC5.project_id
          (exDataC5.assigned_to.getD 0)
    ∧ (update_task exDbC5 5 exUpdC5 0 0).2.project_members = exDbC5.project_members :=
  c5_auto_add_create_only exDbC5 exDataC5 6 0 0 5 exUpdC5 exDbC5out (by decide) (by decide)

/-- An active project of organization 1 managed by user 8. -/
def exProjC6 : Project :=
  { id := 1, organization_id := 1, name := "p", description := "",
    start_date := none, end_date := none, status := "active", visibility := "all",
    assigned_manager_id := some 8, created_by := 3 }

/-- The same project already completed. -/
def exProjC6b : Project :=
  { exProjC6 with status := "completed" }

/-- Store with the active project, a member row and a manager row. -/
def exDbC6 : DB :=
  { organizations := [1], users := [], projects := [exProjC6],
    project_members := [⟨1, 7, "member"⟩, ⟨1, 8, "manager"⟩],
    project_visibility := [], tasks := [], documents := [], daily_reports := [],
    notifications := [], project_assignments := [] }

/-- Store whose project is already completed. -/
def exDbC6b : DB :=
  { exDbC6 with projects := [exProjC6b] }

/-- Update form keeping the manager and setting status completed. -/
def exPUpdC6 : ProjectUpdate :=
  { name := "p", description := "", start_date := none, end_date := none,
    status := "completed", assigned_manager_id := some 8 }

/-- C6: updating a project to completed runs the member-kind unassignment
only on a real transition: from completed the membership table is untouched,
from a non-completed status every member-kind row of the project is deleted
while the other rows, and a re-submitted assigned-manager field, survive. -/
theorem c6_completion_transition (db : DB) (pid : Nat) (data : ProjectUpdate) (p : Project)
    (hp : db.projects.find? (fun x => x.id == pid) = some p)
    (hstat : data.status = "completed") :
    (p.status = "completed" → (update_project db pid data).project_members = db.project_members)
    ∧ (p.status ≠ "completed" →
        (update_project db pid data).project_members
          = auto_unassign_completed_project_members db.project_members pid
        ∧ (∀ pm ∈ db.project_members, pm.role ≠ "member" →
            pm ∈ (update_project db pid data).project_members)
        ∧ (∀ pm ∈ (update_project db pid data).project_members,
            ¬(pm.project_id = pid ∧ pm.role = "member"))
        ∧ (orNoneNat data.assigned_manager_id = p.assigned_manager_id →
            ∀ q ∈ (update_project db pid data).projects, q.id = pid →
              q.assigned_manager_id = p.assigned_manager_id)) := by
  constructor
  · intro h
    unfold update_project
    rw [hp]
    simp [h]
  · intro h
    have hmem : (update_project db pid data).project_members
        = auto_unassign_completed_project_members db.project_members pid := by
      unfold update_project
      rw [hp]
      simp [hstat, h]
    refine ⟨hmem, ?_, ?_, ?_⟩
    · intro pm hm hrole
      rw [hmem]
      refine List.mem_filter.mpr ⟨hm, ?_⟩
      simp [hrole]
    · intro pm hm
      rw [hmem] at hm
      have := (List.mem_filter.mp hm).2
      simp only [Bool.not_eq_eq_eq_not, Bool.not_true, Bool.and_eq_false_iff,
        beq_eq_false_iff_ne] at this
      rintro ⟨h1, h2⟩
      rcases this with h' | h' <;> exact h' (by simp [h1, h2])
    · intro hmgr q hq hid
      unfold update_project at hq
      simp only at hq
      obtain ⟨r, hr, hrq⟩ := List.mem_map.mp hq
      by_cases hc : r.id = pid
      · rw [if_pos (by simp [hc])] at hrq
        rw [← hrq]
        exact hmgr
      · rw [if_neg (by simp [hc])] at hrq
        rw [← hrq] at hid
        exact absurd hid hc

/-- C6 witness: completing the active project 1 deletes its member row and
keeps the manager row and the assigned-manager field, while re-completing the
already-completed project changes no membership row. -/
theorem c6_completion_transition_witness :
    (update_project exDbC6 1 exPUpdC6).project_members = [⟨1, 8, "manager"⟩]
    ∧ (⟨1, 8, "manager"⟩ : ProjectMember) ∈ (update_project exDbC6 1 exPUpdC6).project_members
    ∧ (∀ q ∈ (update_project exDbC6 1 exPUpdC6).projects, q.id = 1 →
        q.assigned_manager_id = exProjC6.assigned_manager_id)
    ∧ (update_project exDbC6b 1 exPUpdC6).project_members = exDbC6b.project_members := by
  have h := c6_completion_transition exDbC6 1 exPUpdC6 exProjC6 (by decide) (by decide)
  have hb := c6_completion_transition exDbC6b 1 exPUpdC6 exProjC6b (by decide) (by decide)
  have h2 := h.2 (by decide)
  exact ⟨h2.1.trans (by decide),
    h2.2.1 ⟨1, 8, "manager"⟩ (by decide) (by decide),
    h2.2.2.2 (by decide),
    hb.1 (by decide)⟩

/-- The dedup row survives appending further notifications. -/
theorem dedup_exists_append (notifs s : List Notification) (a tid : Nat) (today : Int)
    (h : dedup_exists notifs a tid today = true) :
    dedup_exists (notifs ++ s) a tid today = true := by
  simp only [dedup_exists, List.any_append, Bool.or_eq_true]
  exact Or.inl (by simpa [dedup_exists] using h)

/-- The generator loop only appends to the notification list. -/
theorem process_due_tasks_append (today : Int) (l : List Task) :
    ∀ notifs, ∃ s, process_due_tasks today l notifs = notifs ++ s := by
  induction l with
  | nil => exact fun notifs => ⟨[], by simp [process_due_tasks]⟩
  | cons t rest ih =>
    intro notifs
    unfold process_due_tasks
    cases hassign : t.assigned_to with
    | none => simpa using ih notifs
    | some a =>
      by_cases hd : dedup_exists notifs a t.id today = true
      · simpa [hd] using ih notifs
      · obtain ⟨s, hs⟩ := ih (notifs ++ [due_notification t today])
        refine ⟨due_notification t today :: s, ?_⟩
        simp only [Bool.not_eq_true] at hd
        simp [hd, hs]

/-- After a run, every eligible task's (assignee, task) pair has its per-day
dedup row. -/
theorem process_due_tasks_covers (today : Int) (l : List Task) :
    ∀ notifs (t : Task) (a : Nat), t ∈ l → t.assigned_to = some a →
      dedup_exists (process_due_tasks today l notifs) a t.id today = true := by
  induction l with
  | nil => intro notifs t a hmem _; cases hmem
  | cons t' rest ih =>
    intro notifs t a hmem ha
    rcases List.mem_cons.mp hmem with rfl | hmem'
    · unfold process_due_tasks
      simp only [ha]
      by_cases hd : dedup_exists notifs a t.id today = true
      · simp only [hd, if_true]
        obtain ⟨s, hs⟩ := process_due_tasks_append today rest notifs
        rw [hs]
        exact dedup_exists_append notifs s a t.id today hd
      · simp only [Bool.not_eq_true] at hd
        simp only [hd, Bool.false_eq_true, if_false]
        obtain ⟨s, hs⟩ := process_due_tasks_append today rest (notifs ++ [due_notification t today])
        rw [hs]
        refine dedup_exists_append (notifs ++ [due_notification t today]) s a t.id today ?_
        simp [dedup_exists, due_notification, ha]
    · unfold process_due_tasks
      cases hassign : t'.assigned_to with
      | none => simpa using ih notifs t a hmem' ha
      | some a' =>
        by_cases hd : dedup_exists notifs a' t'.id today = true
        · simpa [hd] using ih notifs t a hmem' ha
        · simp only [Bool.not_eq_true] at hd
          simpa [hd] using ih (notifs ++ [due_notification t' today]) t a hmem' ha

/-- When every eligible pair already has its dedup row, the loop writes
nothing. -/
theorem process_due_tasks_skip (today : Int) (l : List Task) :
    ∀ notifs, (∀ t ∈ l, ∀ a, t.assigned_to = some a →
        dedup_exists notifs a t.id today = true) →
      process_due_tasks today l notifs = notifs := by
  induction l with
  | nil => intro notifs _; rfl
  | cons t rest ih =>
    intro notifs h
    unfold process_due_tasks
    cases hassign : t.assigned_to with
    | none => exact ih notifs (fun t' ht' => h t' (List.mem_cons_of_mem _ ht'))
    | some a =>
      have hd := h t (List.mem_cons_self t rest) a hassign
      simp only [hd, if_true]
      exact ih notifs (fun t' ht' => h t' (List.mem_cons_of_mem _ ht'))

/-- Absence of the dedup row is the same as a zero per-pair count. -/
theorem dedup_exists_eq_false_iff (notifs : List Notification) (a tid : Nat) (today : Int) :
    dedup_exists notifs a tid today = false ↔ countMatching notifs a tid today = 0 := by
  simp [dedup_exists, countMatching, List.any_eq_false, List.length_eq_zero,
    List.filter_eq_nil_iff]

/-- Per-pair counts add across appends. -/
theorem countMatching_append (notifs s : List Notification) (a tid : Nat) (today : Int) :
    countMatching (notifs ++ s) a tid today
      = countMatching notifs a tid today + countMatching s a tid today := by
  simp [countMatching, List.filter_append]

/-- Per-pair count of a single notification. -/
theorem countMatching_singleton (n : Notification) (a tid : Nat) (today : Int) :
    countMatching [n] a tid today
      = if (n.user_id == a && n.task_id == some tid && n.type == "task_due_soon"
            && n.created_date == today) = true then 1 else 0 := by
  simp only [countMatching, List.filter_singleton]
  by_cases h : (n.user_id == a && n.task_id == some tid && n.type == "task_due_soon"
      && n.created_date == today) = true
  · simp [h]
  · simp only [Bool.not_eq_true] at h
    simp [h]

/-- Once a pair's count is non-zero the loop never changes it. -/
theorem countMatching_process_stable (today : Int) (a tid : Nat) (l : List Task) :
    ∀ notifs, countMatching notifs a tid today ≠ 0 →
      countMatching (process_due_tasks today l notifs) a tid today
        = countMatching notifs a tid today := by
  induction l with
  | nil => intro notifs _; rfl
  | cons t rest ih =>
    intro notifs hnz
    unfold process_due_tasks
    cases hassign : t.assigned_to with
    | none => exact ih notifs hnz
    | some a' =>
      by_cases hd : dedup_exists notifs a' t.id today = true
      · simp only [hd, if_true]
        exact ih notifs hnz
      · simp only [Bool.not_eq_true] at hd
        simp only [hd, Bool.false_eq_true, if_false]
        have hne : ¬(a' = a ∧ t.id = tid) := by
          rintro ⟨rfl, rfl⟩
          exact hnz ((dedup_exists_eq_false_iff notifs a' t.id today).mp hd)
        have hzero : countMatching [due_notification t today] a tid today = 0 := by
          rw [countMatching_singleton, if_neg]
          intro hp
          simp only [due_notification, hassign, Option.getD_some, Bool.and_eq_true,
            beq_iff_eq, Option.some.injEq] at hp
          exact hne ⟨hp.1.1.1, hp.1.1.2⟩
        rw [ih (notifs ++ [due_notification t today])
              (by rw [countMatching_append, hzero]; simpa using hnz),
            countMatching_append, hzero]
        rfl

/-- A pair with zero count that occurs among the scanned tasks ends the loop
with count exactly one. -/
theorem countMatching_process_one (today : Int) (a tid : Nat) (l : List Task) :
    ∀ notifs, countMatching notifs a tid today = 0 →
      (∃ t ∈ l, t.id = tid ∧ t.assigned_to = some a) →
      countMatching (process_due_tasks today l notifs) a tid today = 1 := by
  induction l with
  | nil => rintro notifs _ ⟨t, ht, _⟩; cases ht
  | cons t' rest ih =>
    rintro notifs hz ⟨t, htmem, htid, hta⟩
    unfold process_due_tasks
    cases hassign : t'.assigned_to with
    | none =>
      rcases List.mem_cons.mp htmem with rfl | hmem'
      · rw [hassign] at hta; cases hta
      · exact ih notifs hz ⟨t, hmem', htid, hta⟩
    | some a' =>
      by_cases hd : dedup_exists notifs a' t'.id today = true
      · simp only [hd, if_true]
        rcases List.mem_cons.mp htmem with rfl | hmem'
        · rw [hassign] at hta
          cases hta
          rw [htid] at hd
          rw [(dedup_exists_eq_false_iff notifs a tid today).mpr hz] at hd
          cases hd
        · exact ih notifs hz ⟨t, hmem', htid, hta⟩
      · simp only [Bool.not_eq_true] at hd
        simp only [hd, Bool.false_eq_true, if_false]
        by_cases hpair : a' = a ∧ t'.id = tid
        · have hone : countMatching [due_notification t' today] a tid today = 1 := by
            rw [countMatching_singleton, if_pos]
            simp [due_notification, hassign, hpair.1, hpair.2]
          rw [countMatching_process_stable today a tid rest
                (notifs ++ [due_notification t' today])
                (by rw [countMatching_append, hz, hone]; simp),
              countMatching_append, hz, hone]
        · have hzero : countMatching [due_notification t' today] a tid today = 0 := by
            rw [countMatching_singleton, if_neg]
            intro hp
            simp only [due_notification, hassign, Option.getD_some, Bool.and_eq_true,
              beq_iff_eq, Option.some.injEq] at hp
            exact hpair ⟨hp.1.1.1, hp.1.1.2⟩
          rcases List.mem_cons.mp htmem with rfl | hmem'
          · rw [hassign] at hta
            cases hta
            exact absurd ⟨rfl, htid⟩ hpair
          · exact ih (notifs ++ [due_notification t' today])
              (by rw [countMatching_append, hz, hzero]) ⟨t, hmem', htid, hta⟩

/-- A task of project 1 assigned to user 2, due three days after day 100. -/
def exTaskC7 : Task :=
  { id := 1, project_id := 1, milestone_id := none, title := "t", description := "",
    assigned_to := some 2, priority := "high", status := "pending",
    due_date := some 103, completion_date := none, created_by := 3, updated_at := 0 }

/-- Store with one eligible due-soon task and no notifications. -/
def exDbC7 : DB :=
  { organizations := [1], users := [], projects := [exProjC5],
    project_members := [], project_visibility := [], tasks := [exTaskC7],
    documents := [], daily_reports := [], notifications := [],
    project_assignments := [] }

/-- C7: a second same-day run of the due-soon generator is the identity, and
a (task, assignee) pair with no notification yet that occurs among the
eligible tasks ends the run with exactly one task_due_soon notification. -/
theorem c7_due_soon_dedup (db : DB) (org_id : Nat) (days_ahead today : Int)
    (a task_id : Nat) :
    create_due_date_notifications (create_due_date_notifications db org_id days_ahead today)
        org_id days_ahead today
      = create_due_date_notifications db org_id days_ahead today
    ∧ (countMatching db.notifications a task_id today = 0 →
        (∃ t ∈ eligible_due_tasks db org_id today days_ahead,
            t.id = task_id ∧ t.assigned_to = some a) →
        countMatching (create_due_date_notifications db org_id days_ahead today).notifications
            a task_id today = 1) := by
  constructor
  · have hskip : process_due_tasks today (eligible_due_tasks db org_id today days_ahead)
        (process_due_tasks today (eligible_due_tasks db org_id today days_ahead) db.notifications)
      = process_due_tasks today (eligible_due_tasks db org_id today days_ahead) db.notifications :=
      process_due_tasks_skip today _ _ (fun t ht a' ha' =>
        process_due_tasks_covers today _ db.notifications t a' ht ha')
    unfold create_due_date_notifications
    congr 1
  · intro hz hex
    exact countMatching_process_one today a task_id _ db.notifications hz hex

/-- C7 witness: on the one-task store, the pair (task 1, user 2) ends a run
on day 100 with exactly one notification, and a second run changes nothing. -/
theorem c7_due_soon_dedup_witness :
    create_due_date_notifications (create_due_date_notifications exDbC7 1 7 100) 1 7 100
      = create_due_date_notifications exDbC7 1 7 100
    ∧ countMatching (create_due_date_notifications exDbC7 1 7 100).notifications 2 1 100 = 1 := by
  have h := c7_due_soon_dedup exDbC7 1 7 100 2 1
  exact ⟨h.1, h.2 (by decide) (by decide)⟩

/-- A second eligible task (task 2) assigned to user 4, due on day 105. -/
def exTaskC8 : Task :=
  { id := 2, project_id := 1, milestone_id := none, title := "u", description := "",
    assigned_to := some 4, priority := "low", status := "pending",
    due_date := some 105, completion_date := none, created_by := 3, updated_at := 0 }

/-- Store with two eligible due-soon tasks and no notifications. -/
def exDbC8 : DB :=
  { exDbC7 with tasks := [exTaskC7, exTaskC8] }

/-- Failure oracle: the INSERT for task 2 raises, the one for task 1 works. -/
def exFailsC8 (task_id : Nat) : Bool :=
  task_id == 2

/-- C8 counterexample: with task 2's INSERT failing, the run returns False
with the notification table unchanged, although task 1 was scanned first,
did not fail, and a failure-free run would have written notifications; the
earlier task's notification is rolled back and the scan is aborted, contrary
to the claim. -/
theorem c8_counterexample :
    create_due_date_notifications_f exDbC8 1 7 100 exFailsC8 = (false, exDbC8)
    ∧ exDbC8.notifications = []
    ∧ eligible_due_tasks exDbC8 1 100 7 = [exTaskC7, exTaskC8]
    ∧ exFailsC8 exTaskC7.id = false
    ∧ (create_due_date_notifications exDbC8 1 7 100).notifications
        = [due_notification exTaskC7 100, due_notification exTaskC8 100] := by
  decide

/-- On a run with no triggered failure the instrumented loop agrees with the
failure-free loop. -/
theorem process_due_tasks_f_some (today : Int) (fails : Nat → Bool) (l : List Task) :
    ∀ notifs r, process_due_tasks_f today fails l notifs = some r →
      process_due_tasks today l notifs = r := by
  induction l with
  | nil =>
    intro notifs r h
    exact Option.some.inj h
  | cons t rest ih =>
    intro notifs r h
    unfold process_due_tasks_f at h
    unfold process_due_tasks
    cases hassign : t.assigned_to with
    | none =>
      simp only [hassign] at h ⊢
      exact ih notifs r h
    | some a =>
      simp only [hassign] at h ⊢
      by_cases hd : dedup_exists notifs a t.id today = true
      · rw [if_pos hd] at h
        rw [if_pos hd]
        exact ih notifs r h
      · rw [if_neg hd] at h
        rw [if_neg hd]
        by_cases hf : fails t.id = true
        · rw [if_pos hf] at h
          exact Option.noConfusion h
        · rw [if_neg hf] at h
          exact ih _ r h

/-- C8 amended: the generator is transactional across the whole batch — a
run either fails, returning False with the notification table exactly as it
was (full rollback, scan aborted), or succeeds and produces precisely the
failure-free result. -/
theorem c8_batch_transactional (db : DB) (org_id : Nat) (days_ahead today : Int)
    (fails : Nat → Bool) :
    create_due_date_notifications_f db org_id days_ahead today fails = (false, db)
    ∨ create_due_date_notifications_f db org_id days_ahead today fails
        = (true, create_due_date_notifications db org_id days_ahead today) := by
  unfold create_due_date_notifications_f
  cases h : process_due_tasks_f today fails (eligible_due_tasks db org_id today days_ahead)
      db.notifications with
  | none => exact Or.inl rfl
  | some r =>
    refine Or.inr ?_
    unfold create_due_date_notifications
    rw [process_due_tasks_f_some today fails _ db.notifications r h]

/-- C9: a member's task edit succeeds only when the task is assigned to the
member, and the store's task table is either untouched or rewritten with the
status-only update, which changes nothing but status, the completion-date
bookkeeping derived from status, and the updated_at timestamp. -/
theorem c9_member_status_only (db : DB) (session_user session_org task_id : Nat)
    (form : TaskForm) (today now : Int) :
    ((edit_task_route db session_user session_org "member" task_id form today now).1 = true →
      ∃ t, get_task_by_id db task_id = some t ∧ t.assigned_to = some session_user)
    ∧ ((edit_task_route db session_user session_org "member" task_id form today now).2.tasks
          = db.tasks
        ∨ (edit_task_route db session_user session_org "member" task_id form today now).2.tasks
          = db.tasks.map (fun t => if t.id == task_id then
              apply_task_update (memberStatusUpdate form.status) today now t else t))
    ∧ (∀ t : Task,
        (apply_task_update (memberStatusUpdate form.status) today now t).title = t.title
        ∧ (apply_task_update (memberStatusUpdate form.status) today now t).description
            = t.description
        ∧ (apply_task_update (memberStatusUpdate form.status) today now t).assigned_to
            = t.assigned_to
        ∧ (apply_task_update (memberStatusUpdate form.status) today now t).priority = t.priority
        ∧ (apply_task_update (memberStatusUpdate form.status) today now t).due_date = t.due_date
        ∧ (apply_task_update (memberStatusUpdate form.status) today now t).milestone_id
            = t.milestone_id
        ∧ (apply_task_update (memberStatusUpdate form.status) today now t).project_id
            = t.project_id
        ∧ (apply_task_update (memberStatusUpdate form.status) today now t).id = t.id
        ∧ (apply_task_update (memberStatusUpdate form.status) today now t).created_by
            = t.created_by
        ∧ (apply_task_update (memberStatusUpdate form.status) today now t).status = form.status
        ∧ (apply_task_update (memberStatusUpdate form.status) today now t).completion_date
            = (if form.status == "completed" then some today
               else if form.status == "pending" || form.status == "in_progress" then none
               else t.completion_date)) := by
  refine ⟨?_, ?_, ?_⟩
  · intro hsucc
    unfold edit_task_route at hsucc
    cases ht : get_task_by_id db task_id with
    | none => rw [ht] at hsucc; exact absurd hsucc (by simp)
    | some t =>
      simp only [ht] at hsucc
      cases hp : get_project_by_id db t.project_id with
      | none => rw [hp] at hsucc; exact absurd hsucc (by simp)
      | some p =>
        simp only [hp] at hsucc
        by_cases horg : (p.organization_id != session_org) = true
        · rw [if_pos horg] at hsucc
          exact absurd hsucc (by simp)
        · rw [if_neg horg] at hsucc
          by_cases hass : ("member" == "member" && t.assigned_to != some session_user) = true
          · rw [if_pos hass] at hsucc
            exact absurd hsucc (by simp)
          · refine ⟨t, rfl, ?_⟩
            simpa using hass
  · unfold edit_task_route
    cases ht : get_task_by_id db task_id with
    | none => exact Or.inl rfl
    | some t =>
      simp only
      cases hp : get_project_by_id db t.project_id with
      | none => exact Or.inl rfl
      | some p =>
        simp only
        by_cases horg : (p.organization_id != session_org) = true
        · rw [if_pos horg]; exact Or.inl rfl
        · rw [if_neg horg]
          by_cases hass : ("member" == "member" && t.assigned_to != some session_user) = true
          · rw [if_pos hass]; exact Or.inl rfl
          · rw [if_neg hass]
            refine Or.inr ?_
            simp only [if_pos (by rfl : ("member" == "member") = true)]
            unfold update_task
            rw [if_neg (by simp [memberStatusUpdate])]
  · intro t
    unfold apply_task_update memberStatusUpdate
    by_cases h1 : (form.status == "completed") = true
    · simp [h1]
    · simp only [Bool.not_eq_true] at h1
      by_cases h2 : (form.status == "pending" || form.status == "in_progress") = true
      · simp [h1, h2]
      · simp only [Bool.not_eq_true] at h2
        simp [h1, h2]

/-- Task 5 of project 1, assigned to member 2. -/
def exTaskC9 : Task :=
  { exTaskC5 with assigned_to := some 2 }

/-- Store for the member task-edit witness. -/
def exDbC9 : DB :=
  { exDbC5 with tasks := [exTaskC9] }

/-- Form a member submits to complete task 5. -/
def exFormC9 : TaskForm :=
  { title := "hack", description := "hack", assigned_to := some 9, priority := "low",
    status := "completed", due_date := some 1, milestone_id := some 1 }

/-- C9 witness: member 2's successful edit of task 5 implies the task is
assigned to them. -/
theorem c9_member_status_only_witness :
    ∃ t, get_task_by_id exDbC9 5 = some t ∧ t.assigned_to = some 2 :=
  (c9_member_status_only exDbC9 2 1 5 exFormC9 100 0).1 (by decide)

/-- C10: under a manager session, edit_user rejects without modifying the
store whenever the requested role is admin, or the target is another manager,
or the request promotes a non-manager to manager; an admin session with an
in-organization target that is not the admin's own record reaches the update
regardless of those three conditions. -/
theorem c10_role_change_guards (db : DB) (session_user session_org target_id : Nat)
    (form : UserForm) (cu target : User)
    (hcu : get_user_by_id db session_user = some cu)
    (ht : get_user_by_id db target_id = some target) :
    (cu.role = "manager" →
      (form.role = "admin" ∨ (target.role = "manager" ∧ target.id ≠ session_user)
        ∨ (form.role = "manager" ∧ target.role ≠ "manager")) →
      edit_user_route db session_user session_org target_id form = (false, db))
    ∧ (cu.role = "admin" → target.organization_id = session_org →
        ¬(target.id = session_user ∧ target.role = "admin") →
        (edit_user_route db session_user session_org target_id form).1 = true
        ∧ (edit_user_route db session_user session_org target_id form).2.users
            = db.users.map (fun u => if u.id == target_id then
                { u with full_name := form.full_name, email := form.email,
                         phone := form.phone, role := form.role,
                         is_active := form.is_active }
              else u)) := by
  constructor
  · intro hmgr hdeny
    unfold edit_user_route
    simp only [ht, hcu]
    by_cases horg : (target.organization_id != session_org) = true
    · rw [if_pos horg]
    · rw [if_neg horg]
      by_cases hself : (target.id == session_user && target.role == "admin") = true
      · rw [if_pos hself]
      · rw [if_neg hself]
        by_cases h1 : (cu.role == "manager" && target.role == "admin") = true
        · rw [if_pos h1]
        · rw [if_neg h1]
          by_cases h2 : (cu.role == "manager" && target.role == "manager"
              && target.id != session_user) = true
          · rw [if_pos h2]
          · rw [if_neg h2]
            by_cases h3 : (cu.role == "manager" && form.role == "admin") = true
            · rw [if_pos h3]
            · rw [if_neg h3]
              rw [if_neg h2]
              by_cases h4 : (cu.role == "manager" && form.role == "manager"
                  && target.role != "manager") = true
              · rw [if_pos h4]
              · exfalso
                rcases hdeny with h | ⟨hr, hi⟩ | ⟨hr, hnr⟩
                · exact h3 (by simp [hmgr, h])
                · exact h2 (by simp [hmgr, hr, hi])
                · exact h4 (by simp [hmgr, hr, hnr])
  · intro hadm horg hnself
    unfold edit_user_route
    simp only [ht, hcu]
    rw [if_neg (by simp [horg]), if_neg (by
        simp only [Bool.and_eq_true, beq_iff_eq]
        rintro ⟨h1, h2⟩
        exact hnself ⟨h1, h2⟩),
      if_neg (by simp [hadm]), if_neg (by simp [hadm]), if_neg (by simp [hadm]),
      if_neg (by simp [hadm]), if_neg (by simp [hadm])]
    unfold update_user
    constructor
    · have := List.find?_some ht
      have hmem := List.mem_of_find?_eq_some ht
      simp only [Bool.and_eq_true, beq_iff_eq] at this
      simp only [List.any_eq_true]
      exact ⟨target, hmem, by simp [this.1]⟩
    · rfl

/-- The admin of organization 1. -/
def exAdminC10 : User :=
  { id := 1, organization_id := 1, full_name := "a", email := "a@y", phone := "",
    role := "admin", is_active := true }

/-- Manager 2 of organization 1. -/
def exMgr2C10 : User :=
  { id := 2, organization_id := 1, full_name := "m2", email := "m2@y", phone := "",
    role := "manager", is_active := true }

/-- Manager 3 of organization 1. -/
def exMgr3C10 : User :=
  { id := 3, organization_id := 1, full_name := "m3", email := "m3@y", phone := "",
    role := "manager", is_active := true }

/-- Store with an admin and two managers. -/
def exDbC10 : DB :=
  { organizations := [1], users := [exAdminC10, exMgr2C10, exMgr3C10],
    projects := [], project_members := [], project_visibility := [], tasks := [],
    documents := [], daily_reports := [], notifications := [],
    project_assignments := [] }

/-- An edit form requesting role member. -/
def exFormC10 : UserForm :=
  { full_name := "m3", email := "m3@y", phone := "", role := "member",
    is_active := true }

/-- C10 witness: manager 2 editing manager 3 is rejected with the store
unchanged, while admin 1 performing the same edit succeeds. -/
theorem c10_role_change_guards_witness :
    edit_user_route exDbC10 2 1 3 exFormC10 = (false, exDbC10)
    ∧ (edit_user_route exDbC10 1 1 3 exFormC10).1 = true := by
  have hm := c10_role_change_guards exDbC10 2 1 3 exFormC10 exMgr2C10 exMgr3C10
    (by decide) (by decide)
  have ha := c10_role_change_guards exDbC10 1 1 3 exFormC10 exAdminC10 exMgr3C10
    (by decide) (by decide)
  exact ⟨hm.1 (by decide) (Or.inr (Or.inl ⟨by decide, by decide⟩)),
    (ha.2 (by decide) (by decide) (by decide)).1⟩

end PM
